import Mathlib

/-!
Shallow embedding of the UK tax calculation engine
(`src/functions/uk_tax_calculations.py`) of the Tax-Optimization-AI MVP.

Monetary amounts and rates are modelled as rationals (`ℚ`); Python `max`,
`min`, `abs` become their `ℚ` counterparts; the guarded divisions
(`a / b if b > 0 else 0`) become explicit `if` expressions.  Python dicts
returned by each calculator become Lean structures with the same field
names.  The ambient clock read by `datetime.now()` in
`calculate_comprehensive_tax_liability` is made an explicit `now : String`
argument, so that the dependency of the result's `calculation_date` field
on the call time is visible in the embedding.
-/

/-- 2024/25 UK Tax Year Thresholds — embedding of the `TaxThresholds`
dataclass.  As in the source, the constructor performs no validation:
each field simply stores the value it is given (defaults as in the
Python dataclass). -/
structure TaxThresholds where
  personal_allowance : ℚ := 12570
  basic_rate_threshold : ℚ := 50270
  higher_rate_threshold : ℚ := 125140
  basic_rate : ℚ := 0.20
  higher_rate : ℚ := 0.40
  additional_rate : ℚ := 0.45
  ni_threshold : ℚ := 12570
  ni_upper_threshold : ℚ := 50270
  ni_basic_rate : ℚ := 0.12
  ni_higher_rate : ℚ := 0.02
  cgt_allowance : ℚ := 6000
  cgt_basic_rate : ℚ := 0.10
  cgt_higher_rate : ℚ := 0.20
  cgt_property_basic : ℚ := 0.18
  cgt_property_higher : ℚ := 0.24
  dividend_allowance : ℚ := 1000
  isa_allowance : ℚ := 20000
  pension_annual_allowance : ℚ := 60000
  deriving DecidableEq

/-- `TaxThresholds()` with all defaults, as constructed by
`UKTaxCalculator.__init__`. -/
def defaultThresholds : TaxThresholds := {}

/-- Specification-side validity predicate for a rate table, stated from the
spec's words (thresholds non-negative and strictly increasing, rates in
[0,1]); used only to compare the spec's construction contract with the
source constructor, which enforces nothing. -/
def rateTableValid_spec (t : TaxThresholds) : Prop :=
  0 ≤ t.personal_allowance ∧ 0 ≤ t.basic_rate_threshold ∧
  0 ≤ t.higher_rate_threshold ∧ 0 ≤ t.ni_threshold ∧ 0 ≤ t.ni_upper_threshold ∧
  t.personal_allowance < t.basic_rate_threshold ∧
  t.basic_rate_threshold < t.higher_rate_threshold ∧
  t.ni_threshold < t.ni_upper_threshold ∧
  (0 ≤ t.basic_rate ∧ t.basic_rate ≤ 1) ∧
  (0 ≤ t.higher_rate ∧ t.higher_rate ≤ 1) ∧
  (0 ≤ t.additional_rate ∧ t.additional_rate ≤ 1) ∧
  (0 ≤ t.ni_basic_rate ∧ t.ni_basic_rate ≤ 1) ∧
  (0 ≤ t.ni_higher_rate ∧ t.ni_higher_rate ≤ 1) ∧
  (0 ≤ t.cgt_basic_rate ∧ t.cgt_basic_rate ≤ 1) ∧
  (0 ≤ t.cgt_higher_rate ∧ t.cgt_higher_rate ≤ 1) ∧
  (0 ≤ t.cgt_property_basic ∧ t.cgt_property_basic ≤ 1) ∧
  (0 ≤ t.cgt_property_higher ∧ t.cgt_property_higher ≤ 1)

instance (t : TaxThresholds) : Decidable (rateTableValid_spec t) := by
  unfold rateTableValid_spec; infer_instance

/-- Result of `_calculate_tax_bands` (the `bands` dict). -/
structure TaxBands where
  basic_rate_tax : ℚ
  higher_rate_tax : ℚ
  additional_rate_tax : ℚ
  deriving DecidableEq

/-- `sum(tax_breakdown.values())`. -/
def TaxBands.total (b : TaxBands) : ℚ :=
  b.basic_rate_tax + b.higher_rate_tax + b.additional_rate_tax

/-- `UKTaxCalculator._calculate_personal_allowance`. -/
def calculate_personal_allowance (t : TaxThresholds) (income : ℚ)
    (adjustment : ℚ) : ℚ :=
  let base_allowance := t.personal_allowance + adjustment
  if income > 100000 then
    max 0 (base_allowance - (income - 100000) * 0.5)
  else
    base_allowance

/-- `UKTaxCalculator._calculate_tax_bands`: the shared progressive-banding
routine.  When a band's `remaining` guard fails the band's tax stays at its
initial `0` and `remaining` is not reduced, exactly as in the Python. -/
def calculate_tax_bands (t : TaxThresholds) (taxable_income : ℚ)
    (basic_rate_limit : ℚ) (higher_rate_limit : ℚ) : TaxBands :=
  let basic_rate_income := min taxable_income basic_rate_limit
  let basic_rate_tax := basic_rate_income * t.basic_rate
  let remaining1 := taxable_income - basic_rate_income
  let higher_rate_income :=
    if remaining1 > 0 then min remaining1 (higher_rate_limit - basic_rate_limit)
    else 0
  let higher_rate_tax :=
    if remaining1 > 0 then higher_rate_income * t.higher_rate else 0
  let remaining2 := remaining1 - higher_rate_income
  let additional_rate_tax :=
    if remaining2 > 0 then remaining2 * t.additional_rate else 0
  ⟨basic_rate_tax, higher_rate_tax, additional_rate_tax⟩

/-- `UKTaxCalculator._calculate_marginal_rate`. -/
def calculate_marginal_rate (t : TaxThresholds) (income : ℚ) : ℚ :=
  if income ≤ t.personal_allowance then 0
  else if income ≤ t.basic_rate_threshold then t.basic_rate
  else if income ≤ t.higher_rate_threshold then t.higher_rate
  else t.additional_rate

/-- Result dict of `calculate_income_tax`. -/
structure IncomeTaxResult where
  gross_income : ℚ
  pension_contributions : ℚ
  gift_aid_donations : ℚ
  gift_aid_gross : ℚ
  personal_allowance : ℚ
  taxable_income : ℚ
  tax_bands : TaxBands
  total_tax : ℚ
  effective_rate : ℚ
  marginal_rate : ℚ
  deriving DecidableEq

/-- `UKTaxCalculator.calculate_income_tax`. -/
def calculate_income_tax (t : TaxThresholds) (gross_income : ℚ)
    (pension_contributions : ℚ) (gift_aid_donations : ℚ)
    (personal_allowance_adjustment : ℚ) : IncomeTaxResult :=
  let adjusted_gross_income := gross_income - pension_contributions
  let gift_aid_gross := gift_aid_donations * 1.25
  let extended_income := adjusted_gross_income + gift_aid_gross
  let personal_allowance :=
    calculate_personal_allowance t adjusted_gross_income
      personal_allowance_adjustment
  let taxable_income := max 0 (adjusted_gross_income - personal_allowance)
  let basic_rate_limit := t.basic_rate_threshold + gift_aid_gross
  let higher_rate_limit := t.higher_rate_threshold + gift_aid_gross
  let tax_breakdown :=
    calculate_tax_bands t taxable_income basic_rate_limit higher_rate_limit
  { gross_income := gross_income
    pension_contributions := pension_contributions
    gift_aid_donations := gift_aid_donations
    gift_aid_gross := gift_aid_gross
    personal_allowance := personal_allowance
    taxable_income := taxable_income
    tax_bands := tax_breakdown
    total_tax := tax_breakdown.total
    effective_rate :=
      if gross_income > 0 then tax_breakdown.total / gross_income else 0
    marginal_rate := calculate_marginal_rate t extended_income }

/-- Result dict of `calculate_national_insurance`. -/
structure NIResult where
  employment_income : ℚ
  self_employment_income : ℚ
  class1_employee : ℚ
  class2_self_employed : ℚ
  class4_self_employed : ℚ
  total_ni : ℚ
  deriving DecidableEq

/-- `UKTaxCalculator.calculate_national_insurance`. -/
def calculate_national_insurance (t : TaxThresholds)
    (employment_income : ℚ) (self_employment_income : ℚ) : NIResult :=
  let class1_employee :=
    if employment_income > t.ni_threshold then
      (min employment_income t.ni_upper_threshold - t.ni_threshold)
          * t.ni_basic_rate
        + (if employment_income > t.ni_upper_threshold then
            (employment_income - t.ni_upper_threshold) * t.ni_higher_rate
          else 0)
    else 0
  let class2_self_employed :=
    if 6515 ≤ self_employment_income ∧ self_employment_income ≤ 50270 then
      3.45 * 52
    else 0
  let class4_self_employed :=
    if self_employment_income > t.ni_threshold then
      (min self_employment_income t.ni_upper_threshold - t.ni_threshold)
          * 0.09
        + (if self_employment_income > t.ni_upper_threshold then
            (self_employment_income - t.ni_upper_threshold) * t.ni_higher_rate
          else 0)
    else 0
  { employment_income := employment_income
    self_employment_income := self_employment_income
    class1_employee := class1_employee
    class2_self_employed := class2_self_employed
    class4_self_employed := class4_self_employed
    total_ni := class1_employee + class2_self_employed + class4_self_employed }

/-- One entry of the `gains_and_losses` list: a dict with a `type` tag and
a signed `amount`. -/
structure GainLoss where
  type : String
  amount : ℚ
  deriving DecidableEq

/-- One iteration of the partition loop at the start of
`calculate_capital_gains_tax`: appends a positive amount to the
`property_gains` or `other_gains` list according to the `type` tag, and adds
the absolute value of a non-positive amount to `total_losses`. -/
def cgt_step (acc : List ℚ × List ℚ × ℚ) (item : GainLoss) :
    List ℚ × List ℚ × ℚ :=
  if item.type = "property" then
    if item.amount > 0 then (acc.1 ++ [item.amount], acc.2.1, acc.2.2)
    else (acc.1, acc.2.1, acc.2.2 + |item.amount|)
  else
    if item.amount > 0 then (acc.1, acc.2.1 ++ [item.amount], acc.2.2)
    else (acc.1, acc.2.1, acc.2.2 + |item.amount|)

/-- The partition loop at the start of `calculate_capital_gains_tax`:
builds the `property_gains` and `other_gains` lists and accumulates
`total_losses`, left to right. -/
def cgt_partition (gains_and_losses : List GainLoss) :
    List ℚ × List ℚ × ℚ :=
  gains_and_losses.foldl cgt_step ([], [], 0)

/-- Result dict of `calculate_capital_gains_tax`. -/
structure CGTResult where
  total_gross_gains : ℚ
  total_losses : ℚ
  net_gains_after_losses : ℚ
  annual_exempt_amount_used : ℚ
  taxable_gains : ℚ
  property_tax : ℚ
  other_gains_tax : ℚ
  total_cgt : ℚ
  deriving DecidableEq

/-- `UKTaxCalculator.calculate_capital_gains_tax`; the Python default
`annual_exempt_amount=None` becomes an `Option ℚ` argument resolved to
`t.cgt_allowance` when `none`. -/
def calculate_capital_gains_tax (t : TaxThresholds)
    (gains_and_losses : List GainLoss)
    (annual_exempt_amount : Option ℚ) : CGTResult :=
  let aea := annual_exempt_amount.getD t.cgt_allowance
  let parts := cgt_partition gains_and_losses
  let total_property_gains := parts.1.sum
  let total_other_gains := parts.2.1.sum
  let total_losses := parts.2.2
  let total_gross_gains := total_property_gains + total_other_gains
  let net_gains_after_losses := max 0 (total_gross_gains - total_losses)
  let taxable_gains := max 0 (net_gains_after_losses - aea)
  let property_tax :=
    min taxable_gains total_property_gains * t.cgt_property_basic
  let other_tax := max 0 (taxable_gains - total_property_gains) * t.cgt_basic_rate
  { total_gross_gains := total_gross_gains
    total_losses := total_losses
    net_gains_after_losses := net_gains_after_losses
    annual_exempt_amount_used := min aea net_gains_after_losses
    taxable_gains := taxable_gains
    property_tax := property_tax
    other_gains_tax := other_tax
    total_cgt := property_tax + other_tax }

/-- Result dict of `calculate_rental_income_tax`. -/
structure RentalResult where
  gross_rental_income : ℚ
  allowable_expenses : ℚ
  property_allowance_used : ℚ
  net_rental_income : ℚ
  taxable_rental_profit : ℚ
  mortgage_interest : ℚ
  mortgage_interest_relief : ℚ
  property_allowance_election : Bool
  deriving DecidableEq

/-- `UKTaxCalculator.calculate_rental_income_tax`. -/
def calculate_rental_income_tax (gross_rental_income : ℚ)
    (allowable_expenses : ℚ) (mortgage_interest : ℚ)
    (property_allowance_election : Bool) : RentalResult :=
  let net_rental_income :=
    if property_allowance_election then max 0 (gross_rental_income - 1000)
    else gross_rental_income - allowable_expenses
  let mortgage_interest_relief :=
    if property_allowance_election then 0 else mortgage_interest * 0.20
  let actual_expenses_used :=
    if property_allowance_election then 0 else allowable_expenses
  let taxable_rental_profit := max 0 net_rental_income
  { gross_rental_income := gross_rental_income
    allowable_expenses := actual_expenses_used
    property_allowance_used := if property_allowance_election then 1000 else 0
    net_rental_income := net_rental_income
    taxable_rental_profit := taxable_rental_profit
    mortgage_interest := mortgage_interest
    mortgage_interest_relief := mortgage_interest_relief
    property_allowance_election := property_allowance_election }

/-- Result dict of `calculate_dividend_tax`. -/
structure DividendResult where
  dividend_income : ℚ
  dividend_allowance_used : ℚ
  taxable_dividends : ℚ
  dividend_tax : ℚ
  effective_dividend_rate : ℚ
  deriving DecidableEq

/-- `UKTaxCalculator.calculate_dividend_tax`. -/
def calculate_dividend_tax (t : TaxThresholds) (dividend_income : ℚ)
    (total_income : ℚ) : DividendResult :=
  let taxable_dividends := max 0 (dividend_income - t.dividend_allowance)
  let basic_rate_remaining :=
    max 0 (t.basic_rate_threshold - (total_income - dividend_income))
  let dividend_basic_rate : ℚ := 0.0875
  let dividend_higher_rate : ℚ := 0.3375
  let dividend_additional_rate : ℚ := 0.3925
  let basic_rate_dividends := min taxable_dividends basic_rate_remaining
  let remaining1 := taxable_dividends - basic_rate_dividends
  let higher_rate_limit := t.higher_rate_threshold - t.basic_rate_threshold
  let higher_rate_dividends := min remaining1 higher_rate_limit
  let remaining2 := remaining1 - higher_rate_dividends
  let tax := basic_rate_dividends * dividend_basic_rate
    + higher_rate_dividends * dividend_higher_rate
    + remaining2 * dividend_additional_rate
  { dividend_income := dividend_income
    dividend_allowance_used := min dividend_income t.dividend_allowance
    taxable_dividends := taxable_dividends
    dividend_tax := tax
    effective_dividend_rate :=
      if dividend_income > 0 then tax / dividend_income else 0 }

/-- The `rental_income` sub-dict of the `income_data` argument to
`calculate_comprehensive_tax_liability`, with the `.get` defaults. -/
structure RentalIncomeData where
  gross_income : ℚ := 0
  expenses : ℚ := 0
  mortgage_interest : ℚ := 0
  property_allowance_election : Bool := false
  deriving DecidableEq

/-- The `investment_income` sub-dict. -/
structure InvestmentIncomeData where
  dividends : ℚ := 0
  deriving DecidableEq

/-- The `income_data` dict of `calculate_comprehensive_tax_liability`,
with each `.get` default made a field default. -/
structure IncomeData where
  employment_income : ℚ := 0
  rental_income : RentalIncomeData := {}
  investment_income : InvestmentIncomeData := {}
  capital_gains : List GainLoss := []
  pension_contributions : ℚ := 0
  gift_aid_donations : ℚ := 0
  self_employment_income : ℚ := 0
  deriving DecidableEq

/-- The `income_breakdown` sub-dict of the comprehensive result. -/
structure IncomeBreakdown where
  employment : ℚ
  rental : RentalResult
  dividends : DividendResult
  capital_gains : CGTResult
  deriving DecidableEq

/-- The `tax_calculations` sub-dict of the comprehensive result. -/
structure TaxCalculations where
  income_tax : IncomeTaxResult
  national_insurance : NIResult
  dividend_tax : DividendResult
  capital_gains_tax : CGTResult
  deriving DecidableEq

/-- The `total_liability` sub-dict of the comprehensive result. -/
structure TotalLiability where
  income_tax : ℚ
  dividend_tax : ℚ
  national_insurance : ℚ
  capital_gains_tax : ℚ
  mortgage_interest_relief : ℚ
  deriving DecidableEq

/-- The dict returned by `calculate_comprehensive_tax_liability`. -/
structure ComprehensiveResult where
  calculation_date : String
  tax_year : String
  income_breakdown : IncomeBreakdown
  tax_calculations : TaxCalculations
  total_liability : TotalLiability
  net_total_tax : ℚ
  effective_tax_rate : ℚ
  deriving DecidableEq

/-- `calculate_comprehensive_tax_liability`.  The `datetime.now()` read is
modelled by the explicit `now` argument recorded in `calculation_date`. -/
def calculate_comprehensive_tax_liability (now : String)
    (income_data : IncomeData) : ComprehensiveResult :=
  let t := defaultThresholds
  let employment_income := income_data.employment_income
  let rental_income_data := income_data.rental_income
  let investment_income := income_data.investment_income
  let capital_gains := income_data.capital_gains
  let rental_tax_calc :=
    calculate_rental_income_tax rental_income_data.gross_income
      rental_income_data.expenses rental_income_data.mortgage_interest
      rental_income_data.property_allowance_election
  let dividend_income := investment_income.dividends
  let total_income := employment_income + rental_tax_calc.taxable_rental_profit
    + dividend_income
  let dividend_tax_calc := calculate_dividend_tax t dividend_income total_income
  let income_tax_calc :=
    calculate_income_tax t
      (employment_income + rental_tax_calc.taxable_rental_profit)
      income_data.pension_contributions income_data.gift_aid_donations 0
  let ni_calc :=
    calculate_national_insurance t employment_income
      income_data.self_employment_income
  let cgt_calc := calculate_capital_gains_tax t capital_gains none
  let total_liability : TotalLiability :=
    { income_tax := income_tax_calc.total_tax
      dividend_tax := dividend_tax_calc.dividend_tax
      national_insurance := ni_calc.total_ni
      capital_gains_tax := cgt_calc.total_cgt
      mortgage_interest_relief := rental_tax_calc.mortgage_interest_relief }
  let net_total_tax := total_liability.income_tax
    + total_liability.dividend_tax + total_liability.national_insurance
    + total_liability.capital_gains_tax
    - total_liability.mortgage_interest_relief
  { calculation_date := now
    tax_year := "2024/25"
    income_breakdown :=
      { employment := employment_income
        rental := rental_tax_calc
        dividends := dividend_tax_calc
        capital_gains := cgt_calc }
    tax_calculations :=
      { income_tax := income_tax_calc
        national_insurance := ni_calc
        dividend_tax := dividend_tax_calc
        capital_gains_tax := cgt_calc }
    total_liability := total_liability
    net_total_tax := net_total_tax
    effective_tax_rate :=
      if total_income > 0 then net_total_tax / total_income else 0 }

/-! ## Claim theorems -/

/-- C5: `calculate_income_tax` computes adjusted gross income as gross
income minus pension contributions, extends both the basic-rate and
higher-rate band ceilings by exactly 1.25 times the net gift-aid donation,
sets taxable income to `max 0 (adjusted gross income - personal allowance)`,
and bands that taxable income over the gift-aid-extended ceilings (the
total tax being the sum over the bands). -/
theorem income_tax_pension_gift_aid_structure (t : TaxThresholds)
    (g p d a : ℚ) :
    (calculate_income_tax t g p d a).gift_aid_gross = d * 1.25
    ∧ (calculate_income_tax t g p d a).personal_allowance
        = calculate_personal_allowance t (g - p) a
    ∧ (calculate_income_tax t g p d a).taxable_income
        = max 0 ((g - p) - calculate_personal_allowance t (g - p) a)
    ∧ (calculate_income_tax t g p d a).tax_bands
        = calculate_tax_bands t
            (max 0 ((g - p) - calculate_personal_allowance t (g - p) a))
            (t.basic_rate_threshold + d * 1.25)
            (t.higher_rate_threshold + d * 1.25)
    ∧ (calculate_income_tax t g p d a).total_tax
        = (calculate_income_tax t g p d a).tax_bands.total :=
  ⟨rfl, rfl, rfl, rfl, rfl⟩

/-- C4 counterexample: the claim says the personal allowance used by
`calculate_income_tax` equals the base allowance **minus** the explicit
adjustment below the taper threshold; but at gross income 50000 (below the
taper threshold) with adjustment 1000 the code returns
12570 + 1000 = 13570, not 12570 - 1000. -/
theorem personal_allowance_adjustment_added_not_subtracted :
    (calculate_income_tax defaultThresholds 50000 0 0 1000).personal_allowance
        = 13570
    ∧ defaultThresholds.personal_allowance - 1000 ≠ (13570 : ℚ) := by
  refine ⟨?_, by norm_num [defaultThresholds]⟩
  norm_num [calculate_income_tax, calculate_personal_allowance,
    defaultThresholds]

/-- C4 amended: the personal allowance used by `calculate_income_tax`
equals the base allowance **plus** the explicit adjustment when the
pre-gift-aid adjusted gross income (gross minus pension contributions) is
at most 100000, and `max 0 ((base + adjustment) - 0.5 * (income - 100000))`
above it; the taper is a function of the pre-gift-aid adjusted gross
income (the gift-aid donation `ga` does not enter it). -/
theorem personal_allowance_taper_pre_gift_aid (g p ga a : ℚ) :
    (calculate_income_tax defaultThresholds g p ga a).personal_allowance
      = if g - p > 100000 then
          max 0 ((defaultThresholds.personal_allowance + a)
            - ((g - p) - 100000) * 0.5)
        else defaultThresholds.personal_allowance + a := rfl

/-- C9: in `calculate_rental_income_tax` exactly one regime applies,
selected by the election flag: under the flat allowance, net income is
`max 0 (gross - 1000)`, no expenses are deducted and the mortgage-interest
relief is 0 regardless of the mortgage interest supplied; under actual
expenses, net income is `gross - expenses` (possibly negative) and the
relief is the fixed 20% credit on the full mortgage interest; in both
regimes the exposed taxable rental profit is `max 0 net` and is
non-negative. -/
theorem rental_regimes_exclusive (g e m : ℚ) (elect : Bool) :
    (calculate_rental_income_tax g e m elect).net_rental_income
        = (if elect then max 0 (g - 1000) else g - e)
    ∧ (calculate_rental_income_tax g e m elect).mortgage_interest_relief
        = (if elect then 0 else m * 0.20)
    ∧ (calculate_rental_income_tax g e m elect).allowable_expenses
        = (if elect then 0 else e)
    ∧ (calculate_rental_income_tax g e m elect).taxable_rental_profit
        = max 0 (calculate_rental_income_tax g e m elect).net_rental_income
    ∧ 0 ≤ (calculate_rental_income_tax g e m elect).taxable_rental_profit :=
  ⟨rfl, rfl, rfl, rfl, le_max_left 0 _⟩

/-- C10: two calls to `calculate_comprehensive_tax_liability` that differ
only in `self_employment_income` agree on the income-tax, dividend-tax,
capital-gains-tax and mortgage-interest-relief components (indeed on the
whole nested income-tax, dividend and CGT results); self-employment income
enters only the national-insurance calculation. -/
theorem self_employment_income_only_affects_ni (now : String)
    (d : IncomeData) (s1 s2 : ℚ) :
    (calculate_comprehensive_tax_liability now
        { d with self_employment_income := s1 }).total_liability.income_tax
      = (calculate_comprehensive_tax_liability now
        { d with self_employment_income := s2 }).total_liability.income_tax
    ∧ (calculate_comprehensive_tax_liability now
        { d with self_employment_income := s1 }).total_liability.dividend_tax
      = (calculate_comprehensive_tax_liability now
        { d with self_employment_income := s2 }).total_liability.dividend_tax
    ∧ (calculate_comprehensive_tax_liability now
        { d with self_employment_income := s1 }).total_liability.capital_gains_tax
      = (calculate_comprehensive_tax_liability now
        { d with self_employment_income := s2 }).total_liability.capital_gains_tax
    ∧ (calculate_comprehensive_tax_liability now
        { d with self_employment_income := s1 }).total_liability.mortgage_interest_relief
      = (calculate_comprehensive_tax_liability now
        { d with self_employment_income := s2 }).total_liability.mortgage_interest_relief
    ∧ (calculate_comprehensive_tax_liability now
        { d with self_employment_income := s1 }).tax_calculations.income_tax
      = (calculate_comprehensive_tax_liability now
        { d with self_employment_income := s2 }).tax_calculations.income_tax
    ∧ (calculate_comprehensive_tax_liability now
        { d with self_employment_income := s1 }).tax_calculations.dividend_tax
      = (calculate_comprehensive_tax_liability now
        { d with self_employment_income := s2 }).tax_calculations.dividend_tax
    ∧ (calculate_comprehensive_tax_liability now
        { d with self_employment_income := s1 }).tax_calculations.capital_gains_tax
      = (calculate_comprehensive_tax_liability now
        { d with self_employment_income := s2 }).tax_calculations.capital_gains_tax :=
  ⟨rfl, rfl, rfl, rfl, rfl, rfl, rfl⟩

/-- C2 counterexample: two calls to `calculate_comprehensive_tax_liability`
with identical income data made at different clock readings are not
bit-identical, because the result's `calculation_date` field records the
call time (`datetime.now()` in the source). -/
theorem comprehensive_result_not_bit_identical_across_calls :
    calculate_comprehensive_tax_liability "2025-04-06T09:00:00" {}
      ≠ calculate_comprehensive_tax_liability "2025-04-06T09:00:01" {} :=
  fun h =>
    absurd (congrArg ComprehensiveResult.calculation_date h) (by decide)

/-- C2 amended: two calls to `calculate_comprehensive_tax_liability` with
identical income data agree on every field of the result except
`calculation_date`: the tax year, the nested per-tax-type results, the
aggregate liability, the net total tax and the effective rate are all
bit-identical. -/
theorem comprehensive_deterministic_modulo_timestamp (now1 now2 : String)
    (d : IncomeData) :
    (calculate_comprehensive_tax_liability now1 d).tax_year
        = (calculate_comprehensive_tax_liability now2 d).tax_year
    ∧ (calculate_comprehensive_tax_liability now1 d).income_breakdown
        = (calculate_comprehensive_tax_liability now2 d).income_breakdown
    ∧ (calculate_comprehensive_tax_liability now1 d).tax_calculations
        = (calculate_comprehensive_tax_liability now2 d).tax_calculations
    ∧ (calculate_comprehensive_tax_liability now1 d).total_liability
        = (calculate_comprehensive_tax_liability now2 d).total_liability
    ∧ (calculate_comprehensive_tax_liability now1 d).net_total_tax
        = (calculate_comprehensive_tax_liability now2 d).net_total_tax
    ∧ (calculate_comprehensive_tax_liability now1 d).effective_tax_rate
        = (calculate_comprehensive_tax_liability now2 d).effective_tax_rate :=
  ⟨rfl, rfl, rfl, rfl, rfl, rfl⟩

/-- C3 counterexample: constructing the rate table with a negative
threshold and a rate outside [0,1] does not fail: the `TaxThresholds`
dataclass performs no validation, the malformed values are stored as
given, and computation proceeds with the malformed table (here income tax
is happily computed from a negative personal allowance). -/
theorem rate_table_construction_does_not_validate :
    ({ personal_allowance := -1, cgt_basic_rate := 2 }
        : TaxThresholds).personal_allowance = -1
    ∧ ¬ rateTableValid_spec
        ({ personal_allowance := -1, cgt_basic_rate := 2 } : TaxThresholds)
    ∧ (calculate_income_tax
        { personal_allowance := -1, cgt_basic_rate := 2 }
        50000 0 0 0).total_tax = 10000.2 := by
  refine ⟨rfl, by decide, ?_⟩
  norm_num [calculate_income_tax, calculate_personal_allowance,
    calculate_tax_bands, TaxBands.total]

/-- C3 amended: rate-table construction performs no validation at all:
any value, valid or not, is stored as given, and a malformed rate (here an
arbitrary `x`, which may be negative or above 1) flows unchecked into the
banded tax computed from the table. -/
theorem rate_table_malformed_values_flow_into_computation (x : ℚ) :
    ({ basic_rate := x } : TaxThresholds).basic_rate = x
    ∧ (calculate_tax_bands { basic_rate := x } 100 50270
        125140).basic_rate_tax = 100 * x := by
  refine ⟨rfl, ?_⟩
  show min (100 : ℚ) 50270 * x = 100 * x
  rw [min_eq_left (by norm_num)]

/-- The `total_income` figure computed inside
`calculate_comprehensive_tax_liability`: employment income plus taxable
rental profit plus dividend income. -/
def comprehensive_total_income (d : IncomeData) : ℚ :=
  d.employment_income
    + (calculate_rental_income_tax d.rental_income.gross_income
        d.rental_income.expenses d.rental_income.mortgage_interest
        d.rental_income.property_allowance_election).taxable_rental_profit
    + d.investment_income.dividends

lemma taxable_rental_profit_nonneg (g e m : ℚ) (elect : Bool) :
    0 ≤ (calculate_rental_income_tax g e m elect).taxable_rental_profit :=
  le_max_left 0 _

lemma comprehensive_effective_rate_eq (now : String) (d : IncomeData) :
    (calculate_comprehensive_tax_liability now d).effective_tax_rate
      = if comprehensive_total_income d > 0 then
          (calculate_comprehensive_tax_liability now d).net_total_tax
            / comprehensive_total_income d
        else 0 := rfl

/-- C1: `calculate_comprehensive_tax_liability` returns `net_total_tax`
equal to income tax + dividend tax + national insurance + capital gains
tax minus mortgage-interest relief, and `effective_tax_rate` equal to
`net_total_tax` divided by total income (employment + taxable rental
profit + dividends), with an explicit guard making the rate 0 when total
income is 0. -/
theorem comprehensive_aggregate_and_effective_rate (now : String)
    (d : IncomeData) (he : 0 ≤ d.employment_income)
    (hd : 0 ≤ d.investment_income.dividends) :
    (calculate_comprehensive_tax_liability now d).net_total_tax
        = (calculate_comprehensive_tax_liability now d).total_liability.income_tax
          + (calculate_comprehensive_tax_liability now d).total_liability.dividend_tax
          + (calculate_comprehensive_tax_liability now d).total_liability.national_insurance
          + (calculate_comprehensive_tax_liability now d).total_liability.capital_gains_tax
          - (calculate_comprehensive_tax_liability now d).total_liability.mortgage_interest_relief
    ∧ (comprehensive_total_income d = 0 →
        (calculate_comprehensive_tax_liability now d).effective_tax_rate = 0)
    ∧ (comprehensive_total_income d ≠ 0 →
        (calculate_comprehensive_tax_liability now d).effective_tax_rate
          = (calculate_comprehensive_tax_liability now d).net_total_tax
            / comprehensive_total_income d) := by
  refine ⟨rfl, ?_, ?_⟩
  · intro h0
    rw [comprehensive_effective_rate_eq, h0]
    norm_num
  · intro hne
    have hnn : 0 ≤ comprehensive_total_income d :=
      add_nonneg (add_nonneg he (taxable_rental_profit_nonneg _ _ _ _)) hd
    have hpos : 0 < comprehensive_total_income d :=
      lt_of_le_of_ne hnn (Ne.symm hne)
    rw [comprehensive_effective_rate_eq, if_pos hpos]

/-- C1 witness: at a declaration with employment income 50000 and
everything else zero, the effective rate is the net total tax divided by
the total income. -/
theorem comprehensive_aggregate_and_effective_rate_witness :
    (0 : ℚ) ≤ ({ employment_income := 50000 } : IncomeData).employment_income
    ∧ (0 : ℚ)
        ≤ ({ employment_income := 50000 } : IncomeData).investment_income.dividends
    ∧ (calculate_comprehensive_tax_liability "2025-04-06"
          { employment_income := 50000 }).effective_tax_rate
        = (calculate_comprehensive_tax_liability "2025-04-06"
            { employment_income := 50000 }).net_total_tax
          / comprehensive_total_income { employment_income := 50000 } :=
  ⟨by norm_num, by norm_num,
    (comprehensive_aggregate_and_effective_rate "2025-04-06"
        { employment_income := 50000 } (by norm_num) (by norm_num)).2.2
      (by norm_num [comprehensive_total_income, calculate_rental_income_tax])⟩

/-- C8: `calculate_dividend_tax` shelters `min d allowance`, then bands
the remaining taxable dividends by position within the overall income
bands: `min taxable (max 0 (basic threshold - (total - d)))` at the basic
dividend rate 8.75%, then up to the width of the higher band at 33.75%,
and the remainder at 39.25%; in particular, whenever total income is at
most the basic-rate threshold 50270 (and `d ≥ 0`), all taxable dividends
are taxed at the basic dividend rate. -/
theorem dividend_tax_position_banding (d t : ℚ) :
    (calculate_dividend_tax defaultThresholds d t).dividend_allowance_used
        = min d 1000
    ∧ (calculate_dividend_tax defaultThresholds d t).taxable_dividends
        = max 0 (d - 1000)
    ∧ (calculate_dividend_tax defaultThresholds d t).dividend_tax
        = min (max 0 (d - 1000)) (max 0 (50270 - (t - d))) * 0.0875
          + min (max 0 (d - 1000)
                  - min (max 0 (d - 1000)) (max 0 (50270 - (t - d))))
                (125140 - 50270) * 0.3375
          + (max 0 (d - 1000)
              - min (max 0 (d - 1000)) (max 0 (50270 - (t - d)))
              - min (max 0 (d - 1000)
                      - min (max 0 (d - 1000)) (max 0 (50270 - (t - d))))
                    (125140 - 50270)) * 0.3925
    ∧ (0 ≤ d → t ≤ 50270 →
        (calculate_dividend_tax defaultThresholds d t).dividend_tax
          = max 0 (d - 1000) * 0.0875) := by
  refine ⟨rfl, rfl, rfl, ?_⟩
  intro hd ht
  have heq : (calculate_dividend_tax defaultThresholds d t).dividend_tax
      = min (max 0 (d - 1000)) (max 0 (50270 - (t - d))) * 0.0875
        + min (max 0 (d - 1000)
                - min (max 0 (d - 1000)) (max 0 (50270 - (t - d))))
              (125140 - 50270) * 0.3375
        + (max 0 (d - 1000)
            - min (max 0 (d - 1000)) (max 0 (50270 - (t - d)))
            - min (max 0 (d - 1000)
                    - min (max 0 (d - 1000)) (max 0 (50270 - (t - d))))
                  (125140 - 50270)) * 0.3925 := rfl
  have hR : max 0 (50270 - (t - d)) = 50270 - (t - d) :=
    max_eq_right (by linarith)
  have hT : max 0 (d - 1000) ≤ 50270 - (t - d) :=
    max_le (by linarith) (by linarith)
  have h1 : min (max 0 (d - 1000)) (max 0 (50270 - (t - d)))
      = max 0 (d - 1000) := by
    rw [hR]; exact min_eq_left hT
  rw [heq, h1, sub_self,
    min_eq_left (show (0 : ℚ) ≤ 125140 - 50270 by norm_num)]
  ring

/-- C8 witness: dividend income 2000 with total income 30000 (below the
basic-rate threshold) is taxed at the basic dividend rate on the 1000
above the allowance. -/
theorem dividend_tax_position_banding_witness :
    (0 : ℚ) ≤ 2000 ∧ (30000 : ℚ) ≤ 50270
    ∧ (calculate_dividend_tax defaultThresholds 2000 30000).dividend_tax
        = max 0 ((2000 : ℚ) - 1000) * 0.0875 :=
  ⟨by norm_num, by norm_num,
    (dividend_tax_position_banding 2000 30000).2.2.2 (by norm_num)
      (by norm_num)⟩

/-- Sum of the positive property-gain amounts of a gain/loss list (the
claim's "total property gains"). -/
def spec_property_gains : List GainLoss → ℚ
  | [] => 0
  | i :: rest =>
      (if i.type = "property" ∧ i.amount > 0 then i.amount else 0)
        + spec_property_gains rest

/-- Sum of the positive non-property gain amounts of a gain/loss list. -/
def spec_other_gains : List GainLoss → ℚ
  | [] => 0
  | i :: rest =>
      (if i.type ≠ "property" ∧ i.amount > 0 then i.amount else 0)
        + spec_other_gains rest

/-- Pooled absolute values of the negative entries of a gain/loss list
(both property and other), the claim's "total losses". -/
def spec_total_losses : List GainLoss → ℚ
  | [] => 0
  | i :: rest =>
      (if i.amount < 0 then |i.amount| else 0) + spec_total_losses rest

lemma cgt_partition_foldl :
    ∀ (l : List GainLoss) (pg og : List ℚ) (tl : ℚ),
      ((List.foldl cgt_step (pg, og, tl) l).1.sum
          = pg.sum + spec_property_gains l)
      ∧ ((List.foldl cgt_step (pg, og, tl) l).2.1.sum
          = og.sum + spec_other_gains l)
      ∧ ((List.foldl cgt_step (pg, og, tl) l).2.2
          = tl + spec_total_losses l)
  | [], pg, og, tl => by
      simp [spec_property_gains, spec_other_gains, spec_total_losses]
  | i :: rest, pg, og, tl => by
      simp only [List.foldl_cons]
      rcases lt_or_le 0 i.amount with ha | ha
      · have ha' : ¬ i.amount < 0 := asymm ha
        by_cases hp : i.type = "property"
        · have hstep : cgt_step (pg, og, tl) i = (pg ++ [i.amount], og, tl) := by
            simp [cgt_step, hp, ha]
          rw [hstep]
          obtain ⟨h1, h2, h3⟩ := cgt_partition_foldl rest (pg ++ [i.amount]) og tl
          refine ⟨?_, ?_, ?_⟩
          · rw [h1]
            simp [spec_property_gains, hp, ha, List.sum_append]
            ring
          · rw [h2]
            simp [spec_other_gains, hp]
          · rw [h3]
            simp [spec_total_losses, ha']
        · have hstep : cgt_step (pg, og, tl) i = (pg, og ++ [i.amount], tl) := by
            simp [cgt_step, hp, ha]
          rw [hstep]
          obtain ⟨h1, h2, h3⟩ := cgt_partition_foldl rest pg (og ++ [i.amount]) tl
          refine ⟨?_, ?_, ?_⟩
          · rw [h1]
            simp [spec_property_gains, hp]
          · rw [h2]
            simp [spec_other_gains, hp, ha, List.sum_append]
            ring
          · rw [h3]
            simp [spec_total_losses, ha']
      · have ha' : ¬ i.amount > 0 := not_lt.mpr ha
        have hstep : cgt_step (pg, og, tl) i = (pg, og, tl + |i.amount|) := by
          by_cases hp : i.type = "property" <;> simp [cgt_step, hp, ha']
        rw [hstep]
        obtain ⟨h1, h2, h3⟩ := cgt_partition_foldl rest pg og (tl + |i.amount|)
        refine ⟨?_, ?_, ?_⟩
        · rw [h1]
          simp [spec_property_gains, ha']
        · rw [h2]
          simp [spec_other_gains, ha']
        · rw [h3]
          rcases ha.lt_or_eq with hlt | heq0
          · simp only [spec_total_losses, if_pos hlt]
            ring
          · simp [spec_total_losses, heq0]

/-- C7: `calculate_capital_gains_tax` pools the absolute values of all
negative entries (both property and other) as total losses, subtracts
losses from gross gains before the annual exempt amount (6000 by default)
is applied, sets taxable gains to `max 0 (net gains - exemption)`, reports
an exemption used of `min exemption net` which never exceeds net gains,
taxes `min taxable property-gains` at the property rate 18% first, and
taxes only the remainder `max 0 (taxable - property-gains)` at the
standard rate 10%. -/
theorem capital_gains_losses_exemption_rate_split (l : List GainLoss) :
    (calculate_capital_gains_tax defaultThresholds l none).total_losses
        = spec_total_losses l
    ∧ (calculate_capital_gains_tax defaultThresholds l none).total_gross_gains
        = spec_property_gains l + spec_other_gains l
    ∧ (calculate_capital_gains_tax defaultThresholds l none).net_gains_after_losses
        = max 0 (spec_property_gains l + spec_other_gains l
            - spec_total_losses l)
    ∧ (calculate_capital_gains_tax defaultThresholds l none).taxable_gains
        = max 0 ((calculate_capital_gains_tax defaultThresholds l
            none).net_gains_after_losses - 6000)
    ∧ (calculate_capital_gains_tax defaultThresholds l
          none).annual_exempt_amount_used
        = min 6000 (calculate_capital_gains_tax defaultThresholds l
            none).net_gains_after_losses
    ∧ (calculate_capital_gains_tax defaultThresholds l
          none).annual_exempt_amount_used
        ≤ (calculate_capital_gains_tax defaultThresholds l
            none).net_gains_after_losses
    ∧ (calculate_capital_gains_tax defaultThresholds l none).property_tax
        = min (calculate_capital_gains_tax defaultThresholds l
              none).taxable_gains (spec_property_gains l) * 0.18
    ∧ (calculate_capital_gains_tax defaultThresholds l none).other_gains_tax
        = max 0 ((calculate_capital_gains_tax defaultThresholds l
            none).taxable_gains - spec_property_gains l) * 0.10
    ∧ (calculate_capital_gains_tax defaultThresholds l none).total_cgt
        = (calculate_capital_gains_tax defaultThresholds l none).property_tax
          + (calculate_capital_gains_tax defaultThresholds l
              none).other_gains_tax := by
  obtain ⟨h1, h2, h3⟩ := cgt_partition_foldl l [] [] 0
  simp only [List.sum_nil, zero_add] at h1 h2 h3
  refine ⟨h3, ?_, ?_, rfl, rfl, min_le_right _ _, ?_, ?_, rfl⟩
  · show (cgt_partition l).1.sum + (cgt_partition l).2.1.sum
        = spec_property_gains l + spec_other_gains l
    rw [cgt_partition, h1, h2]
  · show max 0 ((cgt_partition l).1.sum + (cgt_partition l).2.1.sum
        - (cgt_partition l).2.2)
      = max 0 (spec_property_gains l + spec_other_gains l
          - spec_total_losses l)
    rw [cgt_partition, h1, h2, h3]
  · rw [← h1]; rfl
  · rw [← h1]; rfl

lemma default_basic_rate : defaultThresholds.basic_rate = 0.20 := rfl

lemma default_higher_rate : defaultThresholds.higher_rate = 0.40 := rfl

lemma default_additional_rate : defaultThresholds.additional_rate = 0.45 := rfl

lemma tax_bands_total_closed (bl hl x : ℚ) (_h0 : 0 ≤ bl) (_hbh : bl ≤ hl)
    (_hx : 0 ≤ x) :
    (calculate_tax_bands defaultThresholds x bl hl).total
      = if x ≤ bl then x * 0.20
        else if x ≤ hl then bl * 0.20 + (x - bl) * 0.40
        else bl * 0.20 + (hl - bl) * 0.40 + (x - hl) * 0.45 := by
  simp only [calculate_tax_bands, TaxBands.total]
  rcases le_or_lt x bl with h1 | h1
  · rw [min_eq_left h1, if_pos h1, sub_self]
    simp [default_basic_rate]
  · rw [min_eq_right h1.le, if_neg (not_le.mpr h1)]
    have hr1 : x - bl > 0 := sub_pos.mpr h1
    rw [if_pos hr1, if_pos hr1]
    rcases le_or_lt x hl with h2 | h2
    · rw [if_pos h2, min_eq_left (by linarith : x - bl ≤ hl - bl), sub_self]
      simp [default_basic_rate, default_higher_rate]
    · rw [if_neg (not_le.mpr h2),
        min_eq_right (by linarith : hl - bl ≤ x - bl)]
      have hr2 : x - bl - (hl - bl) > 0 := by linarith
      rw [if_pos hr2]
      simp only [default_basic_rate, default_higher_rate,
        default_additional_rate]
      ring

/-- C6: for the fixed default rate table and band ceilings
`0 ≤ bl ≤ hl`, the total banded tax of the shared banding routine is a
piecewise-linear function of the non-negative taxable amount whose
pieces are `x * 0.20` on `[0, bl]`, `bl * 0.20 + (x - bl) * 0.40` on
`[bl, hl]` and `bl * 0.20 + (hl - bl) * 0.40 + (x - hl) * 0.45` beyond
`hl` — so the breakpoints fall exactly at the configured ceilings and the
pieces agree at them (continuity) — and the total is non-decreasing: for
all `0 ≤ x ≤ y` the tax at `x` is at most the tax at `y`. -/
theorem banded_tax_piecewise_linear_monotone (bl hl : ℚ)
    (h0 : 0 ≤ bl) (hbh : bl ≤ hl) :
    (∀ x, 0 ≤ x → x ≤ bl →
      (calculate_tax_bands defaultThresholds x bl hl).total = x * 0.20)
    ∧ (∀ x, bl ≤ x → x ≤ hl →
      (calculate_tax_bands defaultThresholds x bl hl).total
        = bl * 0.20 + (x - bl) * 0.40)
    ∧ (∀ x, hl ≤ x →
      (calculate_tax_bands defaultThresholds x bl hl).total
        = bl * 0.20 + (hl - bl) * 0.40 + (x - hl) * 0.45)
    ∧ (∀ x y, 0 ≤ x → x ≤ y →
      (calculate_tax_bands defaultThresholds x bl hl).total
        ≤ (calculate_tax_bands defaultThresholds y bl hl).total) := by
  refine ⟨?_, ?_, ?_, ?_⟩
  · intro x hx hxbl
    rw [tax_bands_total_closed bl hl x h0 hbh hx, if_pos hxbl]
  · intro x hblx hxhl
    rw [tax_bands_total_closed bl hl x h0 hbh (le_trans h0 hblx)]
    split_ifs <;> linarith
  · intro x hhlx
    rw [tax_bands_total_closed bl hl x h0 hbh
      (le_trans (le_trans h0 hbh) hhlx)]
    split_ifs <;> linarith
  · intro x y hx hxy
    rw [tax_bands_total_closed bl hl x h0 hbh hx,
      tax_bands_total_closed bl hl y h0 hbh (le_trans hx hxy)]
    split_ifs <;> linarith

/-- C6 witness: at the default ceilings 50270 and 125140, the banded tax
of a taxable amount of 100 is 100 at the basic rate, and the tax at
40000 is at most the tax at 60000. -/
theorem banded_tax_piecewise_linear_monotone_witness :
    (0 : ℚ) ≤ 50270 ∧ (50270 : ℚ) ≤ 125140
    ∧ (calculate_tax_bands defaultThresholds 100 50270 125140).total
        = 100 * 0.20
    ∧ (calculate_tax_bands defaultThresholds 40000 50270 125140).total
        ≤ (calculate_tax_bands defaultThresholds 60000 50270 125140).total :=
  ⟨by norm_num, by norm_num,
    (banded_tax_piecewise_linear_monotone 50270 125140 (by norm_num)
        (by norm_num)).1 100 (by norm_num) (by norm_num),
    (banded_tax_piecewise_linear_monotone 50270 125140 (by norm_num)
        (by norm_num)).2.2.2 40000 60000 (by norm_num) (by norm_num)⟩
